import Mathlib

/-!
Shallow embedding of `model/posefusion.py` from the DTTD2 repository.

The file embeds the control flow, shape algebra and scalar-loss arithmetic of
`BaseFormer`, `FusionBlock`, `PoseFusion`, `PosePredictor` and `PoseNet`.
Tensors are kept abstract (a type parameter `T`) except where a claim needs
shapes (`List Nat`) or real values (confidence head).  External collaborators
that live outside `model/posefusion.py` (the `Transformer` wrapper,
`simplified_attention_forward`, `attn_diverse_loss`, `MLPs`, `PointCloudAE`,
the CNN backbone and the frequency filter) are modelled from the spec as
abstract functions, as noted on each definition.

Python failure modes relevant to the claims are made explicit with `Except`:
attribute lookup failures, `assert` failures, `ValueError`s from tuple
unpacking and invalid arguments, `NotImplementedError`, and
`UnboundLocalError` from reading a local variable that was never assigned.
-/

set_option autoImplicit false

namespace DTTD

/-- Python runtime errors that the embedded code can raise. -/
inductive PyErr where
  | attributeError (name : String)
  | valueError (msg : String)
  | notImplementedError
  | assertionError (msg : String)
  | unboundLocalError (name : String)
  deriving DecidableEq

variable {T E F M : Type}

/-!
## BaseFormer (src/model/posefusion.py lines 20-79)

One `nn.TransformerEncoderLayer` of the stock PyTorch encoder stack.  The
sub-blocks (self-attention including its projections, the dropout after it,
the feed-forward `_ff_block`, the two layer norms) are library code with
frozen weights, so they are modelled as abstract functions on the embedding
type `E`.  `attnMap` models the attention-weight output of
`simplified_attention_forward` (`model/model_utils.py`, not under `src/`):
modelled from the spec, which gives it the contract
`(query, key, value, numHeads, projWeight, projBias, onlyAttn) → (output, attentionMap)`;
its tensor output is modelled in the layout of its consumer.
-/
structure EncoderLayer (E M : Type) where
  self_attn : E → E
  attnMap : E → M
  dropout1 : E → E
  ff : E → E
  norm1 : E → E
  norm2 : E → E

/-- Forward pass of one stock encoder layer with `norm_first = False`
(the PyTorch default): `x = norm1(x + dropout1(selfAttn(x)))` followed by
`x = norm2(x + ff(x))`. -/
def EncoderLayer.stockForward [Add E] (l : EncoderLayer E M) (x : E) : E :=
  let y := l.norm1 (x + l.dropout1 (l.self_attn x))
  l.norm2 (y + l.ff y)

/-- `BaseFormer` (src lines 20-35).  `layers` models
`self.transformer.transformer.layers`; the `Transformer` wrapper itself lives
in `model/model_utils.py` (not under `src/`) and is modelled from the spec as
the stack of `n_layers` encoder layers.  `adlFn` models `attn_diverse_loss`
(also `model/model_utils.py`), spec contract: list of attention maps to a
scalar. -/
structure BaseFormer (F E M : Type) where
  encoder_type : String
  n_layers : Nat
  layers : List (EncoderLayer E M)
  linear_projection : F → E
  norm : E → E
  require_adl : Bool
  adlFn : List M → ℚ

/-- Standard path of `BaseFormer.forward` (src lines 38-40, 56):
projection, the stock encoder stack, then the final layer norm. -/
def BaseFormer.forwardStd [Add E] (bf : BaseFormer F E M) (feat : F) : E :=
  bf.norm (bf.layers.foldl (fun x l => l.stockForward x) (bf.linear_projection feat))

/-- The manual per-layer loop of the diagnostic path (src lines 42-52):
for each encoder layer, run `simplified_attention_forward` on the embeddings,
apply residual plus `norm1`, then feed-forward residual plus `norm2`, while
collecting each layer's attention map in order. -/
def manualLayers [Add E] : E → List (EncoderLayer E M) → E × List M
  | x, [] => (x, [])
  | x, l :: ls =>
    let xa := l.self_attn x
    let m := l.attnMap x
    let y := l.norm1 (x + l.dropout1 xa)
    let z := l.norm2 (y + l.ff y)
    let r := manualLayers z ls
    (r.1, m :: r.2)

/-- Diagnostic path of `BaseFormer.forward` (`require_adl = True`,
src lines 41-57): the manual loop, the attention-diversity loss over the
collected maps, and the final layer norm on the embeddings. -/
def BaseFormer.forwardAdl [Add E] (bf : BaseFormer F E M) (feat : F) : E × ℚ :=
  let r := manualLayers (bf.linear_projection feat) bf.layers
  (bf.norm r.1, bf.adlFn r.2)

/-- The layer loop of `get_attention_map` (src lines 70-79): apply the stock
layers up to `layer_id`, then return that layer's attention map.  If the loop
runs off the end of the layer list, the Python function falls through and
returns `None`. -/
def gamLoop [Add E] (lid : Int) : Nat → E → List (EncoderLayer E M) → Option M
  | _, _, [] => none
  | i, x, l :: ls =>
    if (i : Int) < lid then gamLoop lid (i + 1) (l.stockForward x) ls
    else some (l.attnMap x)

/-- `BaseFormer.get_attention_map` (src lines 59-79).  Raises
`NotImplementedError` for the "customized" encoder type; for the "pytorch"
type it defaults `layer_id` to `n_layers - 1`, raises `ValueError` when the
id is outside `[0, n_layers)`, and otherwise replays the layers and extracts
the requested layer's attention map.  For any other encoder type the Python
function falls through and returns `None`. -/
def BaseFormer.get_attention_map [Add E] (bf : BaseFormer F E M) (feat : F)
    (layer_id : Option Int) : Except PyErr (Option M) :=
  if bf.encoder_type = "customized" then .error .notImplementedError
  else if bf.encoder_type = "pytorch" then
    let lid : Int := layer_id.getD ((bf.n_layers : Int) - 1)
    if (bf.n_layers : Int) ≤ lid ∨ lid < 0 then
      .error (.valueError "Provided layer_id is not valid.")
    else
      .ok (gamLoop lid 0 (bf.linear_projection feat) bf.layers)
  else .ok none

/-!
## FusionBlock and PoseFusion (src lines 104-178)
-/

/-- The `torch` / `einops` tensor operations used by the fusion code,
kept abstract over the tensor type `T`:
`catSeq` is `torch.cat(..., dim=2)` (src 128, 131),
`catChan` / `catChan3` are `torch.cat(..., dim=1)` of two / three tensors
(src 141, 174), `rearrangeSplit` is the
`rearrange(feat, 'b (k n) d -> b n (k d)', k=2)` followed by
`.transpose(2, 1)` of src 138, `transpose21` is `.transpose(2, 1)`
(src 147), and `rearrangeHidden` is
`rearrange(hidden_state, 'b (k d) n -> b d (k n)', k=2)` (src 130). -/
structure TensorOps (T : Type) where
  catSeq : T → T → T
  catChan : T → T → T
  catChan3 : T → T → T → T
  rearrangeSplit : T → T
  transpose21 : T → T
  rearrangeHidden : T → T

/-- The value returned by `FusionBlock.forward` when `require_attn` is false:
either the two-element tuple `(cross_feat, global_feat)` or the three-element
tuple `(cross_feat, global_feat, adl)` (src lines 152-154).  Python `None`
components are `Option.none`. -/
inductive FBOut (T : Type) where
  | pair (cross globalFeat : Option T)
  | triple (cross globalFeat : Option T) (adl : ℚ)
  deriving DecidableEq

/-- `FusionBlock` (src lines 104-120): up to two `BaseFormer` stages.  Both
stages are constructed with the block's own `require_adl` flag
(src 111, 116). -/
structure FusionBlock (T M : Type) where
  embed_dim : Nat
  require_adl : Bool
  modality_fusion : Option (BaseFormer T T M)
  point_fusion : Option (BaseFormer T T M)

/-- `FusionBlock.__init__` (src lines 105-120).  `mkBF` models the
construction of a freshly initialised `BaseFormer`
`(feat_dim, embedding_dim, n_heads, n_layers, require_adl)` — the weight
initialisation is external library state.  The `assert` at src 117-120
raises when both stages would be absent. -/
def FusionBlock.init (mkBF : Nat → Nat → Nat → Nat → Bool → BaseFormer T T M)
    (base_latent embed_dim n_layer_m n_layer_p : Nat) (require_adl : Bool) :
    Except PyErr (FusionBlock T M) :=
  let mf : Option (BaseFormer T T M) :=
    if n_layer_m > 0 then some (mkBF base_latent base_latent 4 n_layer_m require_adl) else none
  let modality_dim := if n_layer_m > 0 then 4 * base_latent else 2 * base_latent
  let pf : Option (BaseFormer T T M) :=
    if n_layer_p > 0 then some (mkBF modality_dim embed_dim 8 n_layer_p require_adl) else none
  if mf.isSome || pf.isSome then
    .ok { embed_dim := embed_dim, require_adl := require_adl,
          modality_fusion := mf, point_fusion := pf }
  else
    .error (.assertionError
      "Either the number of modality or point-wise fusion layer should be larger than 0.")

/-- `FusionBlock.forward` with `require_attn = False` (src lines 122-154);
every call the claims cover passes `require_attn=False`, so the attention-map
branches (src 136-137, 148-151) are outside the modelled fragment.

The local variable `adl` of the Python function is modelled by an
`Option ℚ`: it is assigned only when the modality stage ran with
`require_adl` set (src 133-135); reading it unassigned at src 144 or at the
return on src 153 raises `UnboundLocalError`.  Each `BaseFormer` stage was
constructed with the block's `require_adl` flag, so the block calls
`forwardAdl` exactly when its own flag is set (matching the tuple
subscripting at src 133-135 and 143-145). -/
def FusionBlock.forward [Add T] (ops : TensorOps T) (fb : FusionBlock T M)
    (rgb pt : T) (hidden_state : Option T) : Except PyErr (FBOut T) :=
  let mres : Option T × Option ℚ :=
    match fb.modality_fusion with
    | none => (none, none)
    | some mf =>
      let hs : T :=
        match hidden_state with
        | none => ops.catSeq rgb pt
        | some h => ops.rearrangeHidden h + ops.catSeq rgb pt
      if fb.require_adl then
        let fa := mf.forwardAdl hs
        (some (ops.rearrangeSplit fa.1), some fa.2)
      else
        (some (ops.rearrangeSplit (mf.forwardStd hs)), none)
  let cross := mres.1
  let adl0 := mres.2
  match fb.point_fusion with
  | none =>
    if fb.require_adl then
      match adl0 with
      | some a => .ok (.triple cross none a)
      | none => .error (.unboundLocalError "adl")
    else .ok (.pair cross none)
  | some pfm =>
    let feat : T :=
      match cross with
      | some c => ops.catChan3 rgb pt c
      | none => ops.catChan rgb pt
    if fb.require_adl then
      match adl0 with
      | none => .error (.unboundLocalError "adl")
      | some a =>
        let ga := pfm.forwardAdl feat
        .ok (.triple cross (some (ops.transpose21 ga.1)) (a + ga.2))
    else
      .ok (.pair cross (some (ops.transpose21 (pfm.forwardStd feat))))

/-- The value returned by `PoseFusion.forward` (src line 178): the bare
result, or the pair `(result, adl)` when `require_adl` is set.  The Python
`result` can be `None` (it starts as `None`), hence `Option T`. -/
inductive PFOut (T : Type) where
  | plain (result : Option T)
  | withAdl (result : Option T) (adl : ℚ)
  deriving DecidableEq

/-- `PoseFusion` (src lines 156-162). -/
structure PoseFusion (T M : Type) where
  fusion_mode : Bool
  require_adl : Bool
  layers : List (FusionBlock T M)

/-- `PoseFusion.__init__` (src lines 157-162): sets
`fusion_mode = (n_layer_m * n_layer_p > 0)`, builds the single
`FusionBlock` (whose `assert` may raise), then asserts
`embed_dim == 2 * base_latent`. -/
def PoseFusion.init (mkBF : Nat → Nat → Nat → Nat → Bool → BaseFormer T T M)
    (base_latent embed_dim n_layer_m n_layer_p : Nat) (require_adl : Bool) :
    Except PyErr (PoseFusion T M) :=
  match FusionBlock.init mkBF base_latent embed_dim n_layer_m n_layer_p require_adl with
  | .error e => .error e
  | .ok blk =>
    if embed_dim = 2 * base_latent then
      .ok { fusion_mode := decide (n_layer_m * n_layer_p > 0),
            require_adl := require_adl, layers := [blk] }
    else .error (.assertionError "embed_dim == 2 * base_latent")

/-- One iteration of the fusion-mode loop of `PoseFusion.forward`
(src lines 168-174).  The tuple unpacking at src 170 / 172 raises
`ValueError` when the block's tuple has the wrong arity, and
`torch.cat` on a `None` component raises (dead for well-formed blocks in
fusion mode, where both stages are active). -/
def pfStep [Add T] (ops : TensorOps T) (requireAdl : Bool) (rgb pt : T)
    (acc : Option T × ℚ) (layer : FusionBlock T M) : Except PyErr (Option T × ℚ) :=
  match layer.forward ops rgb pt none with
  | .error e => .error e
  | .ok out =>
    if requireAdl then
      match out with
      | .triple c g a =>
        match c, g with
        | some c, some g =>
          .ok (some (match acc.1 with
                     | none => ops.catChan c g
                     | some r => ops.catChan3 r c g), acc.2 + a)
        | _, _ => .error (.valueError "expected Tensor as element of tensors in cat, got NoneType")
      | .pair _ _ => .error (.valueError "not enough values to unpack (expected 3, got 2)")
    else
      match out with
      | .pair c g =>
        match c, g with
        | some c, some g =>
          .ok (some (match acc.1 with
                     | none => ops.catChan c g
                     | some r => ops.catChan3 r c g), acc.2)
        | _, _ => .error (.valueError "expected Tensor as element of tensors in cat, got NoneType")
      | .triple _ _ _ => .error (.valueError "too many values to unpack (expected 2)")

/-- `PoseFusion.forward` (src lines 164-178).  In fusion mode, iterate the
blocks with `adl` initialised to 0 and concatenate their outputs.  In
single-stage mode, unpack `self.layers[0](rgb_emb, pt_emb)` into exactly two
variables (src 176) and pick `cross_feat` when `global_feat` is `None`,
otherwise `global_feat` (src 177); the return at src 178 reads the local
`adl` when `require_adl` is set, which in this branch was never assigned. -/
def PoseFusion.forward [Add T] (ops : TensorOps T) (pf : PoseFusion T M)
    (rgb pt : T) : Except PyErr (PFOut T) :=
  if pf.fusion_mode then
    match pf.layers.foldlM (pfStep ops pf.require_adl rgb pt) (none, 0) with
    | .error e => .error e
    | .ok acc =>
      if pf.require_adl then .ok (.withAdl acc.1 acc.2) else .ok (.plain acc.1)
  else
    match pf.layers with
    | [] => .error (.valueError "index 0 is out of range")
    | blk :: _ =>
      match blk.forward ops rgb pt none with
      | .error e => .error e
      | .ok (.triple _ _ _) => .error (.valueError "too many values to unpack (expected 2)")
      | .ok (.pair c g) =>
        let result : Option T := match g with | none => c | some _ => g
        if pf.require_adl then .error (.unboundLocalError "adl")
        else .ok (.plain result)

/-!
## PoseNet construction (src lines 180-214)

`PoseNet.__init__` assigns a fixed list of instance attributes (src 184-190)
and then calls `self._init_config_check()` (src 191), which reads
`self.base_latent`, `self.fusion_block_num`, `self.layer_num_m` and
`self.layer_num_p` in that order while building the arguments of `print`
(src 211-214).  Attribute reads on a missing name raise `AttributeError`.
The name `fusion_block_num` is assigned nowhere in the file (neither as an
instance attribute, a class attribute, a method, nor a registered submodule),
so the lookup fails.
-/

/-- Instance attributes assigned on `self` before `_init_config_check` runs
(src lines 184-190), in assignment order. -/
def poseNetAssignedAttrs : List String :=
  ["num_points", "num_obj", "base_latent", "embedding_dim",
   "layer_num_m", "layer_num_p", "fusion_mode"]

/-- Attribute names read by `_init_config_check` (src lines 211-214), in
Python's left-to-right argument evaluation order. -/
def initConfigCheckReads : List String :=
  ["base_latent", "fusion_block_num", "layer_num_m", "layer_num_p"]

/-- Python attribute lookup against the set of assigned attribute names:
a missing name raises `AttributeError`. -/
def lookupAttr (env : List String) (name : String) : Except PyErr Unit :=
  if name ∈ env then .ok () else .error (.attributeError name)

/-- `PoseNet._init_config_check` (src lines 210-214): perform the attribute
reads in order; the first missing attribute raises. -/
def initConfigCheck (env : List String) : Except PyErr Unit :=
  initConfigCheckReads.foldlM (fun _ n => lookupAttr env n) ()

/-!
## PoseNet data flow (src lines 216-249)
-/

/-- The `recon_ref` argument of `PoseNet.forward`: Python `None`, a single
reference tensor, or the two-element sequence
`(depth reference, object geometry)` expected when `recon_choice == 'both'`
(src 228-230). -/
inductive ReconRef (T : Type) where
  | none
  | single (t : T)
  | pair (t u : T)

/-- The `PointCloudAE` collaborator (`model/pointae.py`, not under `src/`).
Modelled from the spec: `run` is the call
`(points, None, reconRef) → (pointFeat, pointEmbed, reconPoints, reconLoss)`
and `latent` is the separate method
`latent(pointFeat, pointEmbed) → latentEmbed`. -/
structure PtAE (T : Type) where
  run : T → ReconRef T → T × T × T × ℚ
  latent : T → T → T

/-- `PoseNet` instance as it would exist with construction completed: the
configuration flags plus the submodules, with the external collaborators
(backbone CNN with the view/repeat/gather selection of src 218-225, point
autoencoders, frequency filter, prediction heads) as abstract functions. -/
structure PoseNetM (T M : Type) where
  recon_choice : String
  require_adl : Bool
  rgbEmbed : T → T → T
  ptnet : PtAE T
  modelnet : Option (PtAE T)
  filter_enhance : Option (T → T)
  fusion : PoseFusion T M
  posepred : T → T → T × T × T

/-- `PoseNet.__init__` (src lines 181-208).  The attribute assignments of
src 184-190 populate the instance dictionary, then `_init_config_check()`
(src 191) performs its attribute reads; the submodule construction of
src 193-208 (external collaborators, supplied here as `rest`) would only run
afterwards. -/
def PoseNet.init (rest : Unit → PoseNetM T M)
    (num_points num_obj base_latent embedding_dim layer_num_m layer_num_p : Nat)
    (recon_choice : String) (filter_enhance require_adl : Bool) :
    Except PyErr (PoseNetM T M) :=
  match initConfigCheck poseNetAssignedAttrs with
  | .error e => .error e
  | .ok _ => .ok (rest ())

/-- The value returned by `PoseNet.forward` (src line 249).  `.detach()` on
`rgb_emb` and `pt_recon` does not change the value, only the gradient
tracking, which is outside this embedding. -/
structure PNOut (T : Type) where
  out_rx : T
  out_tx : T
  out_cx : T
  rgb_emb : T
  pt_recon : T
  robust_loss : ℚ

/-- The shared point-embedding pipeline of `PoseNet.forward`
(src 231-235): the point-encoder pass (whose full quadruple output is kept,
first component of the result), latent projection and the optional
frequency filter (second component of the result). -/
def PoseNetM.ptEmbedBase (pn : PoseNetM T M) (x : T) (rr : ReconRef T) :
    (T × T × T × ℚ) × T :=
  let pr := pn.ptnet.run x rr
  let e1 := pn.ptnet.latent pr.1 pr.2.1
  let e2 := match pn.filter_enhance with | some f => f e1 | none => e1
  (pr, e2)

/-- The point embedding handed to the fusion subsystem in the
`recon_choice == 'both'` configuration (src 231-239): the filtered latent
embedding for the depth reference `a` plus (residually, src 239) the second
encoder's embedding for the object geometry `b`. -/
def PoseNetM.ptEmbedBoth [Add T] (pn : PoseNetM T M) (mn : PtAE T) (x a b : T) : T :=
  (pn.ptEmbedBase x (.single a)).2 + (mn.run x (.single b)).2.1

/-- Extract the diversity-loss component of a fusion result; `0` when no
such component exists. -/
def fusionAdl : Except PyErr (PFOut T) → ℚ
  | .ok (.withAdl _ a) => a
  | _ => 0

/-- `PoseNet.forward` (src lines 216-249).  `robust_loss` starts at 0
(src 221), accumulates the first reconstruction loss (src 232), in the
`'both'` configuration also the second one (src 238), and the diversity loss
when `require_adl` is set (src 242-245).  Unpacking `recon_ref` when it is
not a two-element sequence, calling a `None` submodule, and feeding a
mistyped fusion result to the predictor are modelled as errors (all dead for
consistently constructed instances). -/
def PoseNetM.forward [Add T] (ops : TensorOps T) (pn : PoseNetM T M)
    (img x choose obj : T) (recon_ref : ReconRef T) : Except PyErr (PNOut T) :=
  let rgb_emb := pn.rgbEmbed img choose
  match (if pn.recon_choice = "both" then
           match recon_ref with
           | .pair a b => Except.ok (ReconRef.single a, some b)
           | _ => Except.error (PyErr.valueError "recon_ref is not a pair")
         else Except.ok (recon_ref, (none : Option T))) with
  | .error e => .error e
  | .ok (rr, object_geo) =>
    let base := pn.ptEmbedBase x rr
    let loss0 : ℚ := 0 + base.1.2.2.2
    match (if pn.recon_choice = "both" then
             match pn.modelnet, object_geo with
             | some mn, some geo =>
               let mr := mn.run x (.single geo)
               Except.ok (base.2 + mr.2.1, loss0 + mr.2.2.2)
             | _, _ => Except.error (PyErr.valueError "modelnet is None")
           else Except.ok (base.2, loss0)) with
    | .error e => .error e
    | .ok (pt_emb, loss1) =>
      match pn.fusion.forward ops rgb_emb pt_emb with
      | .error e => .error e
      | .ok fr =>
        match (if pn.require_adl then
                 match fr with
                 | .withAdl (some r) a => Except.ok (r, loss1 + a)
                 | .withAdl none _ => Except.error (PyErr.valueError "feat is None")
                 | .plain _ => Except.error (PyErr.valueError "feat is not subscriptable")
               else
                 match fr with
                 | .plain (some r) => Except.ok (r, loss1)
                 | .plain none => Except.error (PyErr.valueError "feat is None")
                 | .withAdl _ _ => Except.error (PyErr.valueError "feat is a tuple")) with
        | .error e => .error e
        | .ok (feat, loss2) =>
          let pred := pn.posepred feat obj
          .ok { out_rx := pred.1, out_tx := pred.2.1, out_cx := pred.2.2,
                rgb_emb := rgb_emb, pt_recon := base.1.2.2.1, robust_loss := loss2 }

/-!
## PosePredictor, shape level (src lines 81-101)

Shapes are lists of dimension sizes.  `view` requires an equal element
count, `t[0]` requires a non-empty first dimension, `index_select(t, 0, idx)`
requires every index below the first dimension and replaces it by the number
of indices, `transpose(2, 1)` swaps the last two dimensions of a 3-D tensor.
-/

/-- A tensor shape: the list of dimension sizes. -/
abbrev Shape := List Nat

/-- Shape behaviour of the `MLPs` prediction head
(`model/model_utils.py`, not under `src/`).  Modelled from the spec: a small
convolutional stack mapping a per-point feature `(batch, in_dim, n)` to a
per-point output `(batch, out_dim, n)`; a channel mismatch fails in the
first convolution. -/
def MLPs.shape (in_dim out_dim : Nat) : Shape → Except PyErr Shape
  | [b, c, n] =>
    if c = in_dim then .ok [b, out_dim, n]
    else .error (.valueError "MLPs channel mismatch")
  | _ => .error (.valueError "MLPs expects a 3-D input")

/-- `Tensor.view`: reinterpret a shape as `target` when the element counts
agree (contiguity is outside the shape model). -/
def viewShape (s target : Shape) : Except PyErr Shape :=
  if s.prod = target.prod then .ok target
  else .error (.valueError "view size mismatch")

/-- `t[0]` on the first dimension: drops it when it is non-empty. -/
def firstRow : Shape → Except PyErr Shape
  | [] => .error (.valueError "too few dimensions")
  | d :: rest => if 0 < d then .ok rest else .error (.valueError "index 0 out of bounds")

/-- `torch.index_select(t, 0, idx)` at shape level with the concrete index
values `idx`. -/
def indexSelect0 (s : Shape) (idx : List Nat) : Except PyErr Shape :=
  match s with
  | [] => .error (.valueError "index_select on a 0-D tensor")
  | d :: rest =>
    if idx.all (fun i => i < d) then .ok (idx.length :: rest)
    else .error (.valueError "index out of range in index_select")

/-- `.transpose(2, 1)` on a 3-D tensor: swap the last two dimensions. -/
def transpose21Shape : Shape → Except PyErr Shape
  | [a, b, c] => .ok [a, c, b]
  | _ => .error (.valueError "transpose expects dims 1 and 2")

/-- `PosePredictor` configuration (src lines 82-89): `conv_r`, `conv_t` and
`conv_c` are `MLPs(feat_dim, num_obj*{4,3,1})`. -/
structure PosePredictorS where
  num_points : Nat
  num_obj : Nat
  feat_dim : Nat

/-- `PosePredictor.forward` at shape level (src lines 91-101) with the
object-index tensor given as its rows of concrete index values
(`obj[b]` is row `b`).  `torch.sigmoid` (src 95) is shape-preserving.  For
each head: `MLPs`, `view(bs, num_obj, k, num_points)`, then for batch index
`b = 0`: `head[0]`, `index_select(·, 0, obj[0])` and `transpose(2, 1)`. -/
def PosePredictorS.forwardShape (pp : PosePredictorS) (apx : Shape)
    (obj : List (List Nat)) : Except PyErr (Shape × Shape × Shape) :=
  match apx with
  | [bs, c, n] =>
    match obj with
    | [] => .error (.valueError "obj has no row 0")
    | objRow :: _ =>
      let head : Nat → Except PyErr Shape := fun k =>
        match MLPs.shape pp.feat_dim (pp.num_obj * k) [bs, c, n] with
        | .error e => .error e
        | .ok s0 =>
          match viewShape s0 [bs, pp.num_obj, k, pp.num_points] with
          | .error e => .error e
          | .ok s1 =>
            match firstRow s1 with
            | .error e => .error e
            | .ok s2 =>
              match indexSelect0 s2 objRow with
              | .error e => .error e
              | .ok s3 => transpose21Shape s3
      match head 4, head 3, head 1 with
      | .ok r, .ok t, .ok cc => .ok (r, t, cc)
      | .error e, _, _ => .error e
      | _, .error e, _ => .error e
      | _, _, .error e => .error e
  | _ => .error (.valueError "ap_x is not 3-D")

/-!
## PosePredictor, value level for the confidence head (src lines 95, 100)

`cx = torch.sigmoid(self.conv_c(ap_x))` applies the sigmoid element-wise to
the raw head output before any reshaping; `view`, `index_select` and
`transpose` only re-index entries.  So the entry of `out_cx` for object
channel `j` and point `p` (batch element 0) is the sigmoid of the
corresponding raw `conv_c` entry.
-/

/-- The logistic sigmoid `1 / (1 + exp(-x))`, the semantics of
`torch.sigmoid` over the reals. -/
noncomputable def sigmoid (x : ℝ) : ℝ := 1 / (1 + Real.exp (-x))

/-- Value-level model of the confidence path: `conv_c` is the raw confidence
head (`MLPs(feat_dim, num_obj*1)`, external, arbitrary real-valued weights),
indexed as `conv_c input objChannel point` for batch element 0. -/
structure PosePredictorV (I : Type) where
  conv_c : I → Nat → Nat → ℝ

/-- The entry of `out_cx` for object channel `j`, point `p`, batch element 0
(src lines 95, 100): the sigmoid of the matching raw `conv_c` entry, moved
into place by the value-preserving `view` / `index_select` / `transpose`
re-indexing. -/
noncomputable def PosePredictorV.out_cx {I : Type} (pp : PosePredictorV I)
    (apx : I) (j p : Nat) : ℝ :=
  sigmoid (pp.conv_c apx j p)

/-!
## Concrete instances over `ℚ`

Small executable instances used to evaluate the embedded operations at
concrete inputs.
-/

/-- A concrete encoder layer over `ℚ` whose sub-blocks are simple rational
functions. -/
def layerW : EncoderLayer ℚ ℚ :=
  { self_attn := fun x => 2 * x, attnMap := fun x => x + 1, dropout1 := id,
    ff := fun x => x + 3, norm1 := fun x => x / 2, norm2 := fun x => x - 1 }

/-- A concrete `BaseFormer` constructor over `ℚ`: fresh instances with the
requested layer count and flag. -/
def mkBFW : Nat → Nat → Nat → Nat → Bool → BaseFormer ℚ ℚ ℚ :=
  fun _ _ _ n adl =>
    { encoder_type := "pytorch", n_layers := n, layers := List.replicate n layerW,
      linear_projection := fun x => x + 5, norm := fun x => x / 3,
      require_adl := adl, adlFn := fun ms => ms.foldl (fun a m => a + m) 0 }

/-- A concrete `BaseFormer` over `ℚ` with the unsupported "customized"
encoder type. -/
def bfCustW : BaseFormer ℚ ℚ ℚ :=
  { encoder_type := "customized", n_layers := 1, layers := [layerW],
    linear_projection := id, norm := id, require_adl := false,
    adlFn := fun _ => 0 }

/-- Concrete tensor operations over `ℚ`. -/
def opsW : TensorOps ℚ :=
  { catSeq := fun a b => a + b, catChan := fun a b => a + 2 * b,
    catChan3 := fun a b c => a + b + c, rearrangeSplit := fun a => a + 7,
    transpose21 := fun a => a + 11, rearrangeHidden := id }

/-- The `FusionBlock` produced by
`FusionBlock.init mkBFW 1 2 0 1 false`: point fusion only, no diagnostics. -/
def fbPointW : FusionBlock ℚ ℚ :=
  { embed_dim := 2, require_adl := false,
    modality_fusion := none, point_fusion := some (mkBFW 2 2 8 1 false) }

/-- The `FusionBlock` produced by
`FusionBlock.init mkBFW 1 2 0 1 true`: point fusion only with
`require_adl = True`. -/
def fbPointAdlW : FusionBlock ℚ ℚ :=
  { embed_dim := 2, require_adl := true,
    modality_fusion := none, point_fusion := some (mkBFW 2 2 8 1 true) }

/-- The `PoseFusion` produced by
`PoseFusion.init mkBFW 1 2 0 1 false`: single-stage mode, no diagnostics. -/
def pfSingleW : PoseFusion ℚ ℚ :=
  { fusion_mode := false, require_adl := false, layers := [fbPointW] }

/-- The `PoseFusion` produced by
`PoseFusion.init mkBFW 1 2 0 1 true`: single-stage mode with
`require_adl = True`. -/
def pfSingleAdlW : PoseFusion ℚ ℚ :=
  { fusion_mode := false, require_adl := true, layers := [fbPointAdlW] }

/-- A concrete `PointCloudAE` stand-in over `ℚ` with reconstruction
loss 1. -/
def ptaeW : PtAE ℚ :=
  { run := fun x _ => (x, x + 1, x + 2, 1), latent := fun a b => a + b }

/-- A concrete secondary `PointCloudAE` stand-in over `ℚ` with
reconstruction loss 2. -/
def mnW : PtAE ℚ :=
  { run := fun x _ => (x, x + 3, x + 4, 2), latent := fun a b => a + b }

/-- A concrete `PoseNet` instance over `ℚ` configured with
`recon_choice = 'both'` and `require_adl = False`. -/
def pnW : PoseNetM ℚ ℚ :=
  { recon_choice := "both", require_adl := false,
    rgbEmbed := fun i c => i + c, ptnet := ptaeW, modelnet := some mnW,
    filter_enhance := none, fusion := pfSingleW,
    posepred := fun f o => (f, o, f + o) }

deriving instance DecidableEq for Except

/-!
## Theorems
-/

/-- C1: for every valid argument combination, constructing a `PoseNet`
raises an attribute-missing error: `__init__` calls `_init_config_check`,
which reads `self.fusion_block_num`, an attribute never assigned by any
code, so no `PoseNet` instance can ever be created. -/
theorem posenet_init_attribute_error {T M : Type} (rest : Unit → PoseNetM T M)
    (num_points num_obj base_latent embedding_dim layer_num_m layer_num_p : Nat)
    (recon_choice : String) (filter_enhance require_adl : Bool) :
    PoseNet.init rest num_points num_obj base_latent embedding_dim layer_num_m
      layer_num_p recon_choice filter_enhance require_adl =
      .error (.attributeError "fusion_block_num") := rfl

/-- The manual per-layer loop computes the same embeddings as folding the
stock encoder layers. -/
theorem manualLayers_fst {E M : Type} [Add E] (ls : List (EncoderLayer E M)) (x : E) :
    (manualLayers x ls).1 = ls.foldl (fun y l => l.stockForward y) x := by
  induction ls generalizing x with
  | nil => rfl
  | cons l ls ih => simpa [manualLayers, EncoderLayer.stockForward] using ih _

/-- C2: for every `BaseFormer` with fixed weights and every input feature
tensor, the embeddings produced by the diagnostic path (`require_adl=True`,
manual per-layer re-implementation) equal the embeddings produced by the
standard path (stock encoder stack) on the same input.  The sub-blocks are
deterministic functions (frozen weights, evaluation mode). -/
theorem baseformer_adl_matches_std {F E M : Type} [Add E]
    (bf : BaseFormer F E M) (feat : F) :
    (bf.forwardAdl feat).1 = bf.forwardStd feat := by
  unfold BaseFormer.forwardAdl BaseFormer.forwardStd
  simp [manualLayers_fst]

/-- C9: every element of the confidence tensor returned by
`PosePredictor.forward` lies strictly in the open interval `(0, 1)`: the
confidence head's output passes through a sigmoid before object
selection. -/
theorem posepredictor_confidence_in_unit {I : Type} (pp : PosePredictorV I)
    (apx : I) (j p : Nat) :
    0 < pp.out_cx apx j p ∧ pp.out_cx apx j p < 1 := by
  unfold PosePredictorV.out_cx sigmoid
  have hpos : (0 : ℝ) < Real.exp (-(pp.conv_c apx j p)) := Real.exp_pos _
  constructor
  · positivity
  · rw [div_lt_one (by positivity)]
    linarith

/-- C5: constructing a `FusionBlock` with `n_layer_m = 0` and
`n_layer_p = 0` raises a configuration-invalid (assertion) error;
constructing it with at least one of `n_layer_m > 0` or `n_layer_p > 0`
succeeds. -/
theorem fusionblock_init_config {T M : Type}
    (mkBF : Nat → Nat → Nat → Nat → Bool → BaseFormer T T M)
    (base_latent embed_dim n_layer_m n_layer_p : Nat) (require_adl : Bool) :
    (n_layer_m = 0 ∧ n_layer_p = 0 →
      ∃ msg, FusionBlock.init mkBF base_latent embed_dim n_layer_m n_layer_p
        require_adl = .error (.assertionError msg)) ∧
    (0 < n_layer_m ∨ 0 < n_layer_p →
      ∃ fb, FusionBlock.init mkBF base_latent embed_dim n_layer_m n_layer_p
        require_adl = .ok fb) := by
  constructor
  · rintro ⟨rfl, rfl⟩
    exact ⟨_, rfl⟩
  · intro h
    unfold FusionBlock.init
    rcases h with hm | hp
    · simp [hm]
    · by_cases hm : 0 < n_layer_m <;> simp [hm, hp]

/-- C5 witness: at `(n_layer_m, n_layer_p) = (0, 0)` construction fails with
the assertion error, and at `(1, 0)` it succeeds. -/
theorem fusionblock_init_config_witness :
    (∃ msg, FusionBlock.init mkBFW 1 2 0 0 false = .error (.assertionError msg)) ∧
    (∃ fb, FusionBlock.init mkBFW 1 2 1 0 false = .ok fb) :=
  ⟨(fusionblock_init_config mkBFW 1 2 0 0 false).1 ⟨rfl, rfl⟩,
   (fusionblock_init_config mkBFW 1 2 1 0 false).2 (Or.inl (by decide))⟩

/-- C6: `BaseFormer.get_attention_map` raises an invalid-argument error
exactly when the supplied `layer_id` is outside `[0, n_layers)`, and raises
a not-implemented error when the encoder was constructed with encoder type
"customized", regardless of `layer_id`. -/
theorem baseformer_get_attention_map_errors {F E M : Type} [Add E]
    (bf : BaseFormer F E M) (feat : F) :
    (bf.encoder_type = "pytorch" →
      ∀ lid : Int,
        ((∃ msg, bf.get_attention_map feat (some lid) = .error (.valueError msg)) ↔
          (lid < 0 ∨ (bf.n_layers : Int) ≤ lid))) ∧
    (bf.encoder_type = "customized" →
      ∀ layer_id : Option Int,
        bf.get_attention_map feat layer_id = .error .notImplementedError) := by
  constructor
  · intro hpy lid
    unfold BaseFormer.get_attention_map
    rw [hpy]
    by_cases hc : (bf.n_layers : Int) ≤ lid ∨ lid < 0
    · simp only [Option.getD_some, if_pos hc]
      simp only [reduceIte]
      constructor
      · intro _; tauto
      · intro _; exact ⟨"Provided layer_id is not valid.", rfl⟩
    · simp only [Option.getD_some, if_neg hc]
      simp only [reduceIte]
      constructor
      · rintro ⟨msg, hmsg⟩; cases hmsg
      · intro habs; exact absurd (habs.symm.imp id id).symm (by tauto)
  · intro hcust layer_id
    unfold BaseFormer.get_attention_map
    rw [hcust]
    simp only [reduceIte]

/-- C6 witness: a one-layer "pytorch" instance rejects `layer_id = 1` with
the invalid-argument error, and a "customized" instance raises
not-implemented. -/
theorem baseformer_get_attention_map_errors_witness :
    (∃ msg, (mkBFW 1 1 2 1 false).get_attention_map (0 : ℚ) (some 1) =
      .error (.valueError msg)) ∧
    bfCustW.get_attention_map (0 : ℚ) none = .error .notImplementedError :=
  ⟨((baseformer_get_attention_map_errors (mkBFW 1 1 2 1 false) 0).1 rfl 1).mpr
      (Or.inr (by decide)),
   (baseformer_get_attention_map_errors bfCustW 0).2 rfl none⟩

/-- C3 counterexample: with `num_points = 2`, `num_obj = 3`,
`feat_dim = 5`, a batch-1 input and object index 0,
`PosePredictor.forward` returns shapes `(1,2,4), (1,2,3), (1,2,1)` —
not `(2,4), (2,3), (2,1)` as the claim states. -/
theorem posepredictor_shape_claim_cex :
    PosePredictorS.forwardShape ⟨2, 3, 5⟩ [1, 5, 2] [[0]] =
      .ok ([1, 2, 4], [1, 2, 3], [1, 2, 1]) ∧
    PosePredictorS.forwardShape ⟨2, 3, 5⟩ [1, 5, 2] [[0]] ≠
      .ok ([2, 4], [2, 3], [2, 1]) := by
  decide

/-- C3 amended: for every valid batch-1 input with `num_points = P` and an
object index `j < num_obj`, `PosePredictor.forward` returns shapes exactly
`(1, P, 4)`, `(1, P, 3)` and `(1, P, 1)` (a leading singleton batch-like
dimension from `index_select` on the single object index remains). -/
theorem posepredictor_output_shapes (P K fd j : Nat) (hj : j < K) :
    PosePredictorS.forwardShape ⟨P, K, fd⟩ [1, fd, P] [[j]] =
      .ok ([1, P, 4], [1, P, 3], [1, P, 1]) := by
  unfold PosePredictorS.forwardShape MLPs.shape viewShape firstRow indexSelect0
    transpose21Shape
  simp [hj, Nat.mul_assoc]

/-- C3 witness: the amended shape statement evaluated at `P = 2`,
`num_obj = 3`, `feat_dim = 5`, object index 0. -/
theorem posepredictor_output_shapes_witness :
    0 < 3 ∧
    PosePredictorS.forwardShape ⟨2, 3, 5⟩ [1, 5, 2] [[0]] =
      .ok ([1, 2, 4], [1, 2, 3], [1, 2, 1]) :=
  ⟨by decide, posepredictor_output_shapes 2 3 5 0 (by decide)⟩

/-- Characterisation of a successful `PoseFusion.init`: the embedding
dimension is twice the base latent size, at least one layer count is
positive, and the module has `fusion_mode = (n_layer_m * n_layer_p > 0)`
and a single block with the stages the layer counts dictate. -/
theorem posefusion_init_ok {T M : Type}
    (mkBF : Nat → Nat → Nat → Nat → Bool → BaseFormer T T M)
    (b e m p : Nat) (adl : Bool) (pf : PoseFusion T M)
    (h : PoseFusion.init mkBF b e m p adl = .ok pf) :
    e = 2 * b ∧ (0 < m ∨ 0 < p) ∧
    pf = { fusion_mode := decide (0 < m * p), require_adl := adl,
           layers := [{ embed_dim := e, require_adl := adl,
                        modality_fusion :=
                          if 0 < m then some (mkBF b b 4 m adl) else none,
                        point_fusion :=
                          if 0 < p then
                            some (mkBF (if 0 < m then 4 * b else 2 * b) e 8 p adl)
                          else none }] } := by
  unfold PoseFusion.init FusionBlock.init at h
  by_cases hm : 0 < m <;> by_cases hp : 0 < p <;> simp [hm, hp] at h ⊢
  · split at h
    · exact ⟨by assumption, (Except.ok.inj h).symm⟩
    · cases h
  · split at h
    · exact ⟨by assumption, (Except.ok.inj h).symm⟩
    · cases h
  · split at h
    · exact ⟨by assumption, (Except.ok.inj h).symm⟩
    · cases h

/-- C4 (evaluating the defect): for every `FusionBlock` constructed with
`n_layer_m = 0`, `n_layer_p > 0` and `require_adl = True`, `forward` (with
`require_attn = False`) raises `UnboundLocalError` on the diversity-loss
accumulator `adl`, which the point-only path reads before any
assignment. -/
theorem fusionblock_point_only_adl_error {T M : Type} [Add T]
    (mkBF : Nat → Nat → Nat → Nat → Bool → BaseFormer T T M)
    (ops : TensorOps T) (b e p : Nat) (fb : FusionBlock T M)
    (hinit : FusionBlock.init mkBF b e 0 p true = .ok fb) (rgb pt : T) :
    fb.forward ops rgb pt none = .error (.unboundLocalError "adl") := by
  unfold FusionBlock.init at hinit
  by_cases hp : 0 < p
  · simp [hp] at hinit
    subst hinit
    rfl
  · simp [hp] at hinit

/-- C4 witness: the concrete point-only diagnostic block obtained from
`FusionBlock.init mkBFW 1 2 0 1 true` raises the unbound-local error on
any input. -/
theorem fusionblock_point_only_adl_error_witness :
    fbPointAdlW.forward opsW 3 5 none = .error (.unboundLocalError "adl") :=
  fusionblock_point_only_adl_error mkBFW opsW 1 2 1 fbPointAdlW rfl 3 5

/-- C7: a `PoseFusion` constructed in single-stage mode
(`n_layer_m * n_layer_p = 0`) with `require_adl = False` returns a non-null
result equal to exactly one of the lone block's two outputs: `global_feat`
when the point-fusion stage is active, otherwise `cross_feat` — never a
combination of both. -/
theorem posefusion_single_stage_result {T M : Type} [Add T]
    (mkBF : Nat → Nat → Nat → Nat → Bool → BaseFormer T T M) (ops : TensorOps T)
    (b e m p : Nat) (pf : PoseFusion T M)
    (hinit : PoseFusion.init mkBF b e m p false = .ok pf)
    (hsingle : m * p = 0) (rgb pt : T) :
    ∃ blk, pf.layers = [blk] ∧
      ((blk.point_fusion.isSome = true ∧
         ∃ c g, blk.forward ops rgb pt none = .ok (.pair c (some g)) ∧
           pf.forward ops rgb pt = .ok (.plain (some g))) ∨
       (blk.point_fusion.isNone = true ∧
         ∃ c, blk.forward ops rgb pt none = .ok (.pair (some c) none) ∧
           pf.forward ops rgb pt = .ok (.plain (some c)))) := by
  obtain ⟨he, hor, rfl⟩ := posefusion_init_ok mkBF b e m p false pf hinit
  rcases Nat.mul_eq_zero.mp hsingle with hm0 | hp0
  · subst hm0
    have hp : 0 < p := hor.resolve_left (lt_irrefl 0)
    refine ⟨_, rfl, Or.inl ⟨by simp [hp], none,
      ops.transpose21 ((mkBF (2 * b) e 8 p false).forwardStd (ops.catChan rgb pt)),
      ?_, ?_⟩⟩
    · simp [FusionBlock.forward, hp]
    · simp [PoseFusion.forward, FusionBlock.forward, hp]
  · subst hp0
    have hm : 0 < m := hor.resolve_right (lt_irrefl 0)
    refine ⟨_, rfl, Or.inr ⟨by simp, ops.rearrangeSplit
      ((mkBF b b 4 m false).forwardStd (ops.catSeq rgb pt)), ?_, ?_⟩⟩
    · simp [FusionBlock.forward, hm]
    · simp [PoseFusion.forward, FusionBlock.forward, hm]

/-- C7 witness: the point-only single-stage instance returns the block's
`global_feat`. -/
theorem posefusion_single_stage_result_witness :
    ∃ blk, pfSingleW.layers = [blk] ∧
      ((blk.point_fusion.isSome = true ∧
         ∃ c g, FusionBlock.forward opsW blk 3 5 none = .ok (.pair c (some g)) ∧
           PoseFusion.forward opsW pfSingleW 3 5 = .ok (.plain (some g))) ∨
       (blk.point_fusion.isNone = true ∧
         ∃ c, FusionBlock.forward opsW blk 3 5 none = .ok (.pair (some c) none) ∧
           PoseFusion.forward opsW pfSingleW 3 5 = .ok (.plain (some c)))) :=
  posefusion_single_stage_result mkBFW opsW 1 2 0 1 pfSingleW rfl rfl 3 5

/-- C10: a `PoseFusion` constructed with `require_adl = True` in
single-stage mode never returns a value: the single-stage branch unpacks
the block's result into exactly two variables while the block either
returns a three-element tuple (modality-fusion-only configuration) or fails
earlier on its unassigned diversity-loss accumulator (point-fusion-only
configuration), so an error is raised on every call. -/
theorem posefusion_adl_single_stage_error {T M : Type} [Add T]
    (mkBF : Nat → Nat → Nat → Nat → Bool → BaseFormer T T M) (ops : TensorOps T)
    (b e m p : Nat) (pf : PoseFusion T M)
    (hinit : PoseFusion.init mkBF b e m p true = .ok pf)
    (hsingle : m * p = 0) (rgb pt : T) :
    ∃ err, pf.forward ops rgb pt = .error err ∧
      (err = .valueError "too many values to unpack (expected 2)" ∨
       err = .unboundLocalError "adl") := by
  obtain ⟨he, hor, rfl⟩ := posefusion_init_ok mkBF b e m p true pf hinit
  rcases Nat.mul_eq_zero.mp hsingle with hm0 | hp0
  · subst hm0
    have hp : 0 < p := hor.resolve_left (lt_irrefl 0)
    refine ⟨.unboundLocalError "adl", ?_, Or.inr rfl⟩
    simp [PoseFusion.forward, FusionBlock.forward, hp]
  · subst hp0
    have hm : 0 < m := hor.resolve_right (lt_irrefl 0)
    refine ⟨.valueError "too many values to unpack (expected 2)", ?_, Or.inl rfl⟩
    simp [PoseFusion.forward, FusionBlock.forward, hm]

/-- C10 witness: the concrete point-only diagnostic `PoseFusion` raises on
a concrete call. -/
theorem posefusion_adl_single_stage_error_witness :
    ∃ err, PoseFusion.forward opsW pfSingleAdlW 3 5 = .error err ∧
      (err = .valueError "too many values to unpack (expected 2)" ∨
       err = .unboundLocalError "adl") :=
  posefusion_adl_single_stage_error mkBFW opsW 1 2 0 1 pfSingleAdlW rfl rfl 3 5

/-- C8: for every `PoseNet` configured with `recon_choice = 'both'`, the
`robust_loss` returned by `forward` equals the first point-encoder
reconstruction loss plus the second point-encoder reconstruction loss, plus
the attention-diversity loss when `require_adl` is enabled; no other term
is added. -/
theorem posenet_recon_both_loss {T M : Type} [Add T] (ops : TensorOps T)
    (pn : PoseNetM T M) (img x choose obj : T) (recon_ref : ReconRef T)
    (out : PNOut T) (hrc : pn.recon_choice = "both")
    (hout : pn.forward ops img x choose obj recon_ref = .ok out) :
    ∃ a b mn, recon_ref = .pair a b ∧ pn.modelnet = some mn ∧
      out.robust_loss =
        (pn.ptnet.run x (.single a)).2.2.2 + (mn.run x (.single b)).2.2.2 +
        (if pn.require_adl then
           fusionAdl (pn.fusion.forward ops (pn.rgbEmbed img choose)
             (pn.ptEmbedBoth mn x a b))
         else 0) := by
  unfold PoseNetM.forward at hout
  rw [hrc] at hout
  cases recon_ref with
  | none => simp at hout
  | single t => simp at hout
  | pair a b =>
    simp only [reduceIte] at hout
    cases hmn : pn.modelnet with
    | none => rw [hmn] at hout; simp at hout
    | some mn =>
      rw [hmn] at hout
      refine ⟨a, b, mn, rfl, rfl, ?_⟩
      simp only [] at hout
      cases hfr : pn.fusion.forward ops (pn.rgbEmbed img choose)
          ((pn.ptEmbedBase x (.single a)).2 + (mn.run x (.single b)).2.1) with
      | error e => rw [hfr] at hout; simp at hout
      | ok fr =>
        rw [hfr] at hout
        cases hadl : pn.require_adl with
        | true =>
          rw [hadl] at hout
          cases fr with
          | plain r => simp at hout
          | withAdl r adl =>
            cases r with
            | none => simp at hout
            | some rr =>
              simp at hout
              subst hout
              simp only [PoseNetM.ptEmbedBoth, hfr]
              simp [fusionAdl, PoseNetM.ptEmbedBase]
        | false =>
          rw [hadl] at hout
          cases fr with
          | withAdl r adl => simp at hout
          | plain r =>
            cases r with
            | none => simp at hout
            | some rr =>
              simp at hout
              subst hout
              simp [PoseNetM.ptEmbedBase]

/-- C8 witness: the concrete both-reconstruction `PoseNet` instance
evaluated at a concrete input. -/
theorem posenet_recon_both_loss_witness :
    ∃ out, PoseNetM.forward opsW pnW 1 2 3 4 (.pair 7 9) = .ok out ∧
      (∃ a b mn, (ReconRef.pair (7 : ℚ) 9) = .pair a b ∧ pnW.modelnet = some mn ∧
        out.robust_loss =
          (pnW.ptnet.run 2 (.single a)).2.2.2 + (mn.run 2 (.single b)).2.2.2 +
          (if pnW.require_adl then
             fusionAdl (pnW.fusion.forward opsW (pnW.rgbEmbed 1 3)
               (pnW.ptEmbedBoth mn 2 a b))
           else 0)) :=
  ⟨_, rfl, posenet_recon_both_loss opsW pnW 1 2 3 4 (.pair 7 9) _ rfl rfl⟩

end DTTD
